import Mathlib

/-
Verification of the intake-release-blog repository: a pluggable data-access
layer (driver registry + catalog resolution) demonstrated through the
`intake_github` plugin defined in src/dev.ipynb.  The plugin's own code
(class attributes and `_get_partition`) is embedded from the notebook
source; the core registry / resolver / serialization machinery that the
notebook exercises lives in the intake library and is modelled from the
spec, anchored on the concrete inputs and outputs recorded in the notebook.
-/

/-- A scalar value as it appears in catalog args, metadata and dataframe
cells: strings, integers, or datetimes (kept abstract as strings). -/
inductive Value where
  | str (s : String)
  | int (n : Int)
  | dt (s : String)
  deriving DecidableEq, Repr

/-- A GitHub user object; only the `login` attribute is used by the plugin. -/
structure User where
  login : String
  deriving DecidableEq, Repr

/-- A GitHub issue object as surfaced by pygithub: the eight attributes the
plugin reads (`user` being an object with a `login`). -/
structure Issue where
  number : Int
  title : String
  user : User
  state : String
  comments : Int
  created_at : String
  updated_at : String
  body : String
  deriving DecidableEq, Repr

/-- A dataframe, modelled as an ordered association of column name to the
list of cell values of that column. -/
abbrev DataFrame : Type := List (String × List Value)

namespace GithubIssuesSource

/-- Class attribute from src/dev.ipynb: `container = 'dataframe'`. -/
def container : String := "dataframe"

/-- Class attribute from src/dev.ipynb: `version = '0.0.1'`. -/
def version : String := "0.0.1"

/-- Class attribute from src/dev.ipynb: `partition_access = False`. -/
def partition_access : Bool := false

/-- Class attribute from src/dev.ipynb: `name = 'github_issues'`. -/
def name : String := "github_issues"

/-- The column list iterated over by `_get_partition` in src/dev.ipynb. -/
def columns : List String :=
  ["number", "title", "user", "state", "comments",
   "created_at", "updated_at", "body"]

/-- `getattr(issue, column)` for the seven plain columns used by the loop
in `_get_partition` (the `user` column is special-cased before this is
reached).  An unknown column name has no attribute; the loop never asks
for one, so the default branch is arbitrary (empty string). -/
def getattr (issue : Issue) (column : String) : Value :=
  if column = "number" then .int issue.number
  else if column = "title" then .str issue.title
  else if column = "state" then .str issue.state
  else if column = "comments" then .int issue.comments
  else if column = "created_at" then .dt issue.created_at
  else if column = "updated_at" then .dt issue.updated_at
  else if column = "body" then .str issue.body
  else .str ""

/-- `_get_partition(self, _)` from src/dev.ipynb.  The external fetch
(`repo.get_issues(**self.ghkwargs)`) is abstracted as the list `raw_data`
of issues it returns; the partition-index parameter is the ignored `_` of
the source.  For each column name, the `user` column collects
`issue.user.login`, every other column collects `getattr(issue, column)`,
and `pd.DataFrame(data)` keeps the insertion order of the columns. -/
def _get_partition (raw_data : List Issue) ( _i : Nat) : DataFrame :=
  columns.map fun column =>
    if column = "user" then
      ("user", raw_data.map fun issue => Value.str issue.user.login)
    else
      (column, raw_data.map fun issue => getattr issue column)

end GithubIssuesSource

/-- Driver Descriptor (spec §3): the static metadata that the plugin class
carries as class attributes. -/
structure Descriptor where
  name : String
  container : String
  version : String
  partition_access : Bool
  deriving DecidableEq, Repr

/-- The descriptor of the `github_issues` driver, assembled from the class
attributes in src/dev.ipynb. -/
def githubIssuesDescriptor : Descriptor :=
  { name := GithubIssuesSource.name,
    container := GithubIssuesSource.container,
    version := GithubIssuesSource.version,
    partition_access := GithubIssuesSource.partition_access }

/-- Catalog Entry (spec §3): driver name reference, argument mapping,
optional description and metadata annotations. -/
structure CatalogEntry where
  driver : String
  args : List (String × Value)
  description : String
  metadata : List (String × Value)
  deriving DecidableEq, Repr

/-- Driver Instance (spec §3): a live object bound to one entry's
arguments, carrying its descriptor, the module of the owning extension
package, and the pass-through metadata. -/
structure DriverInstance where
  descriptor : Descriptor
  args : List (String × Value)
  description : String
  metadata : List (String × Value)
  pluginModule : String
  deriving DecidableEq, Repr

/-- One registration in the Driver Registry: the descriptor and the module
of the extension package that exported it. -/
structure RegistryEntry where
  descriptor : Descriptor
  module : String
  deriving DecidableEq, Repr

/-- The Driver Registry (spec §4.2): a mapping from driver name to the
registered implementation, in registration order. -/
abbrev Registry : Type := List (String × RegistryEntry)

/-- The registry invariant maintained by `register(descriptor, impl)`
(spec §4.2): every mapping is keyed by its descriptor's own name. -/
def Registry.wellFormed (r : Registry) : Bool :=
  r.all fun p => p.2.descriptor.name == p.1

/-- Error taxonomy of spec §7. -/
inductive Err where
  | DriverNotFound (driver : String)
  | InvalidConfiguration (msg : String)
  | SourceUnavailable (msg : String)
  | UnsupportedOperation
  deriving DecidableEq, Repr

/-- Modelled from the spec: `lookup(name)` of the Driver Registry (§4.2),
whose code lives in the intake library and not under src/.  Returns the
implementation registered under the name, or fails with `DriverNotFound`
carrying that name. -/
def Registry.lookup (r : Registry) (name : String) : Except Err RegistryEntry :=
  match r.find? (fun q => q.1 == name) with
  | some q => .ok q.2
  | none => .error (.DriverNotFound name)

/-- Modelled from the spec: `resolve(entry, registry)` of the Catalog Entry
Resolver (§4.3), whose code lives in the intake library and not under
src/.  Looks up `entry.driver` (failing with `DriverNotFound` naming the
missing driver), constructs the driver with `entry.args` as its bound
construction arguments and attaches `entry.metadata` as opaque
pass-through.  Per-driver signature validation is not modelled: the spec
gives no driver parameter lists, and the notebook driver forwards
arbitrary extra keywords to pygithub. -/
def resolve (entry : CatalogEntry) (r : Registry) : Except Err DriverInstance :=
  match r.lookup entry.driver with
  | .error e => .error e
  | .ok re =>
      .ok { descriptor := re.descriptor,
            args := entry.args,
            description := entry.description,
            metadata := entry.metadata,
            pluginModule := re.module }

/-- The catalog document emitted by the Serialization Bridge: an optional
`plugins.source` module list and the named `sources` entries (spec §6),
matching the YAML printed by `source.yaml()` in src/dev.ipynb. -/
structure CatalogDoc where
  plugins : Option (List String)
  sources : List (String × CatalogEntry)
  deriving DecidableEq, Repr

/-- Modelled from the spec: `to_catalog_entry(instance,
include_plugin_reference)` — the Serialization Bridge (§4.4), reached as
`source.yaml()` / `source.yaml(True)` in src/dev.ipynb; its code lives in
the intake library and not under src/.  Emits one `sources` entry named
after the driver, with `driver` the bound descriptor's name and `args` the
originally supplied construction arguments; when the flag is set it also
emits a `plugins.source` section naming the owning extension module, as in
the notebook's second YAML output. -/
def to_catalog_entry (source : DriverInstance)
    (include_plugin_reference : Bool) : CatalogDoc :=
  { plugins :=
      if include_plugin_reference then some [source.pluginModule] else none,
    sources :=
      [(source.descriptor.name,
        { driver := source.descriptor.name,
          args := source.args,
          description := source.description,
          metadata := source.metadata })] }

/-- The single catalog entry emitted by the Serialization Bridge. -/
def emittedEntry (doc : CatalogDoc) : Option CatalogEntry :=
  doc.sources.head?.map fun p => p.2

/-- Modelled from the spec: the dispatch of `read_partition(i)` in the
Driver Interface (§4.1), whose code lives in the intake library and not
under src/.  It is parameterized by the instance's `partition_access` flag
and partition-fetch function: when partition access is disabled it fails
with `UnsupportedOperation` without touching the data. -/
def read_partition (pa : Bool) (get_partition : Nat → DataFrame)
    (i : Nat) : Except Err DataFrame :=
  if pa then .ok (get_partition i) else .error .UnsupportedOperation

/-- Discovery Result (spec §3/§6): schema as field → semantic type, shape
with unknown dimensions as an explicit `none` marker, partition count, and
metadata. -/
structure DiscoveryResult where
  dtype : List (String × String)
  shape : Option Nat × Nat
  npartitions : Nat
  metadata : List (String × Value)
  deriving DecidableEq, Repr

/-- Modelled from the spec: the `discover()` result of a resolved
`github_issues` instance (the plugin's schema code is in the packaged
`intake_github/__init__.py`, which is not under src/), recorded verbatim
as the notebook's `source.discover()` output: eight schema fields, shape
`(None, 8)`, one partition, empty metadata. -/
def GithubIssuesSource.discover : DiscoveryResult :=
  { dtype := [("number", "int"), ("title", "str"), ("user", "str"),
              ("state", "str"), ("comments", "int"),
              ("created_at", "datetime64[ns]"),
              ("updated_at", "datetime64[ns]"), ("body", "str")],
    shape := (none, 8),
    npartitions := 1,
    metadata := [] }

/-- Modelled from the spec: `read()` of the Driver Interface (§4.1) for the
single-partition `github_issues` driver, whose dispatch code lives in the
intake library and not under src/: one complete snapshot, i.e. the single
partition. -/
def GithubIssuesSource.read (raw_data : List Issue) : DataFrame :=
  GithubIssuesSource._get_partition raw_data 0

/-- Modelled from the spec: `discover()` (§4.1) with its caching behaviour,
as run by the intake base class (not under src/): the schema is a pure
function of the instance's bound arguments, computed on first call and
cached on the instance; a repeated call returns the cached result.  The
instance state is the optional cached result. -/
def discover_cached (schema : DiscoveryResult)
    (cache : Option DiscoveryResult) :
    DiscoveryResult × Option DiscoveryResult :=
  match cache with
  | some res => (res, some res)
  | none => (schema, some schema)

/-- An installed extension package as seen by the registry scan: its module
name and the Descriptors it exposes at top level. -/
structure Package where
  name : String
  descriptors : List Descriptor
  deriving DecidableEq, Repr

/-- The registry's naming convention for extension packages (spec §6; the
notebook: a package whose name starts with `intake_` is scanned at import
time). -/
def matchesNamingConvention (s : String) : Bool :=
  "intake_".data.isPrefixOf s.data

/-- Modelled from the spec: `discover_installed()` of the Driver Registry
(§4.2, §6), whose code lives in the intake library and not under src/: it
scans the installed packages, and for every package matching the naming
convention registers each exposed Descriptor under that Descriptor's
`name`, recording the owning module. -/
def discover_installed (packages : List Package) : Registry :=
  packages.foldr
    (fun pkg acc =>
      if matchesNamingConvention pkg.name then
        (pkg.descriptors.map fun d =>
          (d.name, { descriptor := d, module := pkg.name })) ++ acc
      else acc)
    []

/-- Modelled from the spec: the convenience constructors generated at
library initialization, one `open_<name>` per registered driver (spec §6;
the notebook's `intake.open_github_issues`). -/
def open_functions (packages : List Package) : List String :=
  (discover_installed packages).map fun p => "open_" ++ p.1

/-- The registry as populated for the notebook session: the `github_issues`
driver exported by the `intake_github` package. -/
def sampleRegistry : Registry :=
  [("github_issues",
    { descriptor := githubIssuesDescriptor, module := "intake_github" })]

/-- The notebook's catalog entry for `open_github_issues('ContinuumIO',
'intake')`, as printed by `source.yaml()`. -/
def sampleEntry : CatalogEntry :=
  { driver := "github_issues",
    args := [("organization", Value.str "ContinuumIO"),
             ("repo", Value.str "intake")],
    description := "",
    metadata := [] }

/-- The driver instance the notebook constructs from `sampleEntry`. -/
def sampleSource : DriverInstance :=
  { descriptor := githubIssuesDescriptor,
    args := sampleEntry.args,
    description := "",
    metadata := [],
    pluginModule := "intake_github" }

/-- The `intake_github` package as the registry scan sees it. -/
def samplePackage : Package :=
  { name := "intake_github", descriptors := [githubIssuesDescriptor] }

/-- C9: `_get_partition` ignores its partition-index argument: with the same
external data, any two indices produce the same full dataset. -/
theorem get_partition_ignores_index (raw_data : List Issue) (i j : Nat) :
    GithubIssuesSource._get_partition raw_data i =
      GithubIssuesSource._get_partition raw_data j := rfl

/-- C10: in the dataframe built by `_get_partition`, the `user` column holds
each issue's `user.login` string while the other seven columns hold the
attribute of the same name, all columns listing the issues in fetch order. -/
theorem get_partition_columns (raw_data : List Issue) (i : Nat) :
    GithubIssuesSource._get_partition raw_data i =
      [("number", raw_data.map fun issue => Value.int issue.number),
       ("title", raw_data.map fun issue => Value.str issue.title),
       ("user", raw_data.map fun issue => Value.str issue.user.login),
       ("state", raw_data.map fun issue => Value.str issue.state),
       ("comments", raw_data.map fun issue => Value.int issue.comments),
       ("created_at", raw_data.map fun issue => Value.dt issue.created_at),
       ("updated_at", raw_data.map fun issue => Value.dt issue.updated_at),
       ("body", raw_data.map fun issue => Value.str issue.body)] := by
  simp [GithubIssuesSource._get_partition, GithubIssuesSource.columns,
    GithubIssuesSource.getattr]

/-- C2: the Serialization Bridge always emits `driver` equal to the
instance's bound descriptor name and `args` equal to the exact
construction arguments the instance was built with. -/
theorem to_catalog_entry_driver_args (source : DriverInstance)
    (include_plugin_reference : Bool) :
    (to_catalog_entry source include_plugin_reference).sources.map
        (fun p => (p.2.driver, p.2.args)) =
      [(source.descriptor.name, source.args)] := rfl

/-- C3: with `include_plugin_reference` set, the emitted catalog document
carries a `plugins.source` section naming the extension module that owns
the driver, on top of the `sources` section with the driver name and the
original args. -/
theorem to_catalog_entry_plugin_section (source : DriverInstance) :
    (to_catalog_entry source true).plugins = some [source.pluginModule] ∧
    (to_catalog_entry source true).sources.map
        (fun p => (p.2.driver, p.2.args)) =
      [(source.descriptor.name, source.args)] := ⟨rfl, rfl⟩

/-- C7: resolving an entry whose driver name is not registered fails with
`DriverNotFound` carrying that driver's name — never any other error kind
and never substituted data. -/
theorem resolve_unregistered_driver (entry : CatalogEntry) (r : Registry)
    (h : r.find? (fun q => q.1 == entry.driver) = none) :
    resolve entry r = Except.error (Err.DriverNotFound entry.driver) := by
  unfold resolve Registry.lookup
  rw [h]

/-- Witness for C7: loading the notebook's catalog entry on a system where
the `intake_github` extension was never discovered. -/
theorem resolve_unregistered_driver_witness :
    resolve sampleEntry [] =
      Except.error (Err.DriverNotFound "github_issues") :=
  resolve_unregistered_driver sampleEntry [] rfl

/-- C1: round-trip law — resolving the entry emitted by the Serialization
Bridge for a resolved instance yields an instance whose args are
structurally equal to the original's (for a well-formed registry that
still has the driver registered). -/
theorem roundtrip_args (entry : CatalogEntry) (r : Registry)
    (source : DriverInstance) (include_plugin_reference : Bool)
    (hwf : Registry.wellFormed r = true)
    (h : resolve entry r = Except.ok source) :
    ∃ e2 source2,
      emittedEntry (to_catalog_entry source include_plugin_reference) =
          some e2 ∧
        resolve e2 r = Except.ok source2 ∧ source2.args = source.args := by
  unfold resolve Registry.lookup at h
  cases hf : r.find? (fun q => q.1 == entry.driver) with
  | none =>
      rw [hf] at h
      exact absurd h (by simp)
  | some p =>
      rw [hf] at h
      injection h with h
      subst h
      have hmem : p ∈ r := List.mem_of_find?_eq_some hf
      have hpred := List.find?_some hf
      have hname : p.2.descriptor.name = entry.driver := by
        unfold Registry.wellFormed at hwf
        have hk := List.all_eq_true.mp hwf p hmem
        simp only [beq_iff_eq] at hk hpred
        rw [hk, hpred]
      refine ⟨{ driver := p.2.descriptor.name,
                args := entry.args,
                description := entry.description,
                metadata := entry.metadata },
              { descriptor := p.2.descriptor,
                args := entry.args,
                description := entry.description,
                metadata := entry.metadata,
                pluginModule := p.2.module }, rfl, ?_, rfl⟩
      unfold resolve Registry.lookup
      rw [hname, hf]

/-- Witness for C1: the notebook session — resolve the `github_issues`
entry, serialize it with `yaml(True)`, and resolve the emitted entry. -/
theorem roundtrip_args_witness :
    ∃ e2 source2,
      emittedEntry (to_catalog_entry sampleSource true) = some e2 ∧
        resolve e2 sampleRegistry = Except.ok source2 ∧
          source2.args = sampleSource.args :=
  roundtrip_args sampleEntry sampleRegistry sampleSource true (by decide) rfl

/-- C4: on a driver whose descriptor disables partition access,
`read_partition` fails with `UnsupportedOperation` at every index,
returning no data and no other error kind. -/
theorem read_partition_unsupported (pa : Bool)
    (get_partition : Nat → DataFrame) (i : Nat) (h : pa = false) :
    read_partition pa get_partition i =
      Except.error Err.UnsupportedOperation := by
  subst h
  rfl

/-- Witness for C4: the `github_issues` driver (whose class sets
`partition_access = False`) rejects `read_partition(5)`. -/
theorem read_partition_unsupported_witness :
    read_partition GithubIssuesSource.partition_access
      (GithubIssuesSource._get_partition []) 5 =
      Except.error Err.UnsupportedOperation :=
  read_partition_unsupported GithubIssuesSource.partition_access
    (GithubIssuesSource._get_partition []) 5 rfl

/-- C5: the resolved issues driver discovers a schema of exactly 8 fields,
shape `(unknown, 8)` with the row dimension an explicit unknown marker
(not a zero), and one partition; and `read()` returns one container whose
columns are exactly the 8 declared fields. -/
theorem discover_read_contract (raw_data : List Issue) :
    GithubIssuesSource.discover.dtype.length = 8 ∧
    GithubIssuesSource.discover.shape = (none, 8) ∧
    GithubIssuesSource.discover.shape.1 ≠ some 0 ∧
    GithubIssuesSource.discover.npartitions = 1 ∧
    (GithubIssuesSource.read raw_data).map Prod.fst =
      GithubIssuesSource.discover.dtype.map Prod.fst := by
  refine ⟨rfl, rfl, by simp [GithubIssuesSource.discover], rfl, ?_⟩
  simp [GithubIssuesSource.read, GithubIssuesSource._get_partition,
    GithubIssuesSource.columns, GithubIssuesSource.discover]

/-- C6: `discover()` is idempotent — a second call without an intervening
`close()` returns the identical Discovery Result, and changes nothing
beyond the cached result (a second call leaves the cache untouched). -/
theorem discover_idempotent (schema : DiscoveryResult)
    (cache : Option DiscoveryResult) :
    (discover_cached schema (discover_cached schema cache).2).1 =
        (discover_cached schema cache).1 ∧
      (discover_cached schema (discover_cached schema cache).2).2 =
        (discover_cached schema cache).2 := by
  cases cache <;> exact ⟨rfl, rfl⟩

/-- If a package matching the naming convention is installed and exposes a
Descriptor, the scan registers that Descriptor under its name with the
package as owning module. -/
theorem mem_discover_installed (packages : List Package) (pkg : Package)
    (d : Descriptor) (hpkg : pkg ∈ packages)
    (hconv : matchesNamingConvention pkg.name = true)
    (hd : d ∈ pkg.descriptors) :
    (d.name, ({ descriptor := d, module := pkg.name } : RegistryEntry)) ∈
      discover_installed packages := by
  induction packages with
  | nil => exact absurd hpkg (List.not_mem_nil pkg)
  | cons q qs ih =>
      have hstep : discover_installed (q :: qs) =
          if matchesNamingConvention q.name then
            (q.descriptors.map fun e =>
              (e.name, { descriptor := e, module := q.name })) ++
              discover_installed qs
          else discover_installed qs := rfl
      rw [hstep]
      rcases List.mem_cons.mp hpkg with hq | hqs
      · subst hq
        rw [hconv]
        simp only [if_true]
        exact List.mem_append_left _
          (List.mem_map_of_mem
            (fun e => (e.name,
              ({ descriptor := e, module := pkg.name } : RegistryEntry))) hd)
      · have htail := ih hqs
        cases hcase : matchesNamingConvention q.name with
        | true => simp only [if_true]; exact List.mem_append_right _ htail
        | false => simpa using htail

/-- C8: automatic discovery — for an installed package whose name matches
the `intake_` naming convention and that exposes a Descriptor at top
level, the Descriptor's name becomes a registry key and a matching
`open_<name>` convenience constructor exists. -/
theorem discovery_registers_and_opens (packages : List Package)
    (pkg : Package) (d : Descriptor) (hpkg : pkg ∈ packages)
    (hconv : matchesNamingConvention pkg.name = true)
    (hd : d ∈ pkg.descriptors) :
    d.name ∈ (discover_installed packages).map Prod.fst ∧
      ("open_" ++ d.name) ∈ open_functions packages := by
  have hmem := mem_discover_installed packages pkg d hpkg hconv hd
  constructor
  · exact List.mem_map_of_mem Prod.fst hmem
  · exact List.mem_map_of_mem (fun p => "open_" ++ p.1) hmem

/-- Witness for C8: the `intake_github` package from the notebook exports
the `github_issues` Descriptor; after the scan, `github_issues` is a
registry key and `open_github_issues` exists. -/
theorem discovery_registers_and_opens_witness :
    githubIssuesDescriptor.name ∈
        (discover_installed [samplePackage]).map Prod.fst ∧
      ("open_" ++ githubIssuesDescriptor.name) ∈
        open_functions [samplePackage] :=
  discovery_registers_and_opens [samplePackage] samplePackage
    githubIssuesDescriptor (List.mem_singleton.mpr rfl) (by decide)
    (List.mem_singleton.mpr rfl)
